import Mathlib

/-!
Verification development for the `ota-resilience` fault-injection harness.

The Python modules under `scripts/` are shallowly embedded as executable
Lean definitions:

* `scripts/state_fuzzer.py`   — A/B replica boot-decision oracle and the
  scenario generator.  Python's module-global Mersenne-Twister stream
  (`random.getrandbits`, `random.Random(seed)`) is abstracted as an explicit
  draw stream `g : Nat → Nat` threaded through the definitions by position;
  `rng.choice(l)` reads one draw and picks `l[draw % len(l)]`,
  `rng.randint(a,b)` reads one draw and yields `a + draw % (b-a+1)`.
* `scripts/mcuboot_state_fuzzer.py` — MCUboot trailer oracle `predict_boot`.
* `scripts/invariants.py`     — the postcondition checks and `run_invariants`.
  A check that raises `InvariantViolation` is embedded as a total function
  returning `some` violation; the violation's reporting-only `details` dict
  is elided, its `invariant_name` and `description` are kept verbatim.
* `scripts/geometry_matrix.py` — `validate_geometry`, embedded as the list of
  collected error strings; a Python `ZeroDivisionError` (modulo by zero in
  the alignment loop) is the `Except.error` case.
* `scripts/write_trace_heuristic.py` — `classify_trace`; a
  `ZeroDivisionError` in the tier sampling loops is the `Except.error` case.

Python `int` is embedded as `Int` (with `%` being Python's nonnegative-for-
positive-modulus remainder, which `Int.emod` matches), byte values as `Nat`.
-/

/-! ### Python formatting helpers (`str.format`, `repr`) -/

/-- Python `str(int)`: decimal rendering of an integer. -/
def intDec (n : Int) : String :=
  if n < 0 then "-" ++ Nat.repr n.natAbs else Nat.repr n.natAbs

/-- Python `str(bool)`: `True` / `False`. -/
def pyBool (b : Bool) : String :=
  if b then "True" else "False"

/-- One uppercase hex digit. -/
def hexDigitUC (d : Nat) : Char :=
  if d < 10 then Char.ofNat (48 + d) else Char.ofNat (55 + d)

/-- One lowercase hex digit. -/
def hexDigitLC (d : Nat) : Char :=
  if d < 10 then Char.ofNat (48 + d) else Char.ofNat (87 + d)

/-- Hex digits of `n` (most significant first), `fuel` bounds the recursion. -/
def hexDigitsAux (digit : Nat → Char) : Nat → Nat → List Char
  | 0, _ => []
  | _, 0 => []
  | fuel + 1, n => hexDigitsAux digit fuel (n / 16) ++ [digit (n % 16)]

/-- Python `"{:X}".format(n)` for a natural number. -/
def hexUC (n : Nat) : String :=
  if n = 0 then "0" else String.mk (hexDigitsAux hexDigitUC n n)

/-- Python `"{:x}".format(n)` for a natural number. -/
def hexLC (n : Nat) : String :=
  if n = 0 then "0" else String.mk (hexDigitsAux hexDigitLC n n)

/-- Python `"{:X}".format(v)` for an `int` (a minus sign before the digits). -/
def hexUCInt (v : Int) : String :=
  if v < 0 then "-" ++ hexUC v.natAbs else hexUC v.natAbs

/-- Left-pad with zeros to `width` characters. -/
def padZeros (width : Nat) (s : String) : String :=
  String.mk (List.replicate (width - s.length) (Char.ofNat 48)) ++ s

/-- Python `"{:08X}".format(v)` (the width counts the minus sign). -/
def hexPad8 (v : Int) : String :=
  if v < 0 then "-" ++ padZeros 7 (hexUC v.natAbs) else padZeros 8 (hexUC v.natAbs)

/-- A single-quote character, as Python `repr` uses around strings. -/
def pySQuote : String := String.singleton (Char.ofNat 39)

/-- Python `repr` of a string (quoting only; escapes are not needed here). -/
def pyReprStr (s : String) : String := pySQuote ++ s ++ pySQuote

/-- Python `repr` of an optional string (`None` or a quoted string). -/
def pyReprOptStr : Option String → String
  | none => "None"
  | some s => pyReprStr s

/-- Little-endian `struct.pack('<I', v)`: four bytes of a 32-bit word. -/
def packU32 (v : Nat) : List Nat :=
  [v % 256, v / 256 % 256, v / 65536 % 256, v / 16777216 % 256]

/-- Little-endian `struct.unpack('<I', bytes)`: a 32-bit word from four bytes. -/
def unpackLE32 (bs : List Nat) : Nat :=
  bs.getD 0 0 + 256 * bs.getD 1 0 + 65536 * bs.getD 2 0 + 16777216 * bs.getD 3 0

/-- Python `v & 0xFFFFFFFF` on an arbitrary `int` (two's-complement wrap). -/
def u32 (v : Int) : Nat :=
  (v % 4294967296).toNat

/-! ### `scripts/state_fuzzer.py` — constants and data classes -/

def BOOT_META_MAGIC : Nat := 0x4F54414D

def BOOT_META_REPLICA_SIZE : Nat := 256

def BOOT_META_WORD_COUNT : Nat := BOOT_META_REPLICA_SIZE / 4

def SLOT_A_BASE : Nat := 0x10002000

def SLOT_B_BASE : Nat := 0x10039000

def SRAM_START : Nat := 0x20000000

def SRAM_END : Nat := 0x20020000

def IDX_MAGIC : Nat := 0
def IDX_SEQ : Nat := 1
def IDX_ACTIVE_SLOT : Nat := 2
def IDX_TARGET_SLOT : Nat := 3
def IDX_STATE : Nat := 4
def IDX_BOOT_COUNT : Nat := 5
def IDX_MAX_BOOT_COUNT : Nat := 6
def IDX_CRC : Nat := 63

def STATE_CONFIRMED : Int := 0
def STATE_PENDING_TEST : Int := 1

def CRC_POLYNOMIAL : Nat := 0xEDB88320

/-- `MetadataState`: the logical content of one metadata replica. -/
structure MetadataState where
  seq : Int
  active_slot : Int
  target_slot : Int
  state : Int
  boot_count : Int
  max_boot_count : Int
  valid : Bool
  deriving DecidableEq

/-- `SlotState`: vector table / content pattern for one firmware slot. -/
structure SlotState where
  has_valid_vectors : Bool
  content_pattern : String
  deriving DecidableEq

/-- `FuzzScenario`: a complete initial NVM state. -/
structure FuzzScenario where
  replica0 : Option MetadataState
  replica1 : Option MetadataState
  slot_a : SlotState
  slot_b : SlotState
  fault_at : Option Int
  description : String
  deriving DecidableEq

/-- `BootOutcome`: predicted bootloader behavior for a scenario. -/
structure BootOutcome where
  boots : Bool
  boot_slot : Option Int
  reason : String
  deriving DecidableEq

/-! ### `scripts/state_fuzzer.py` — CRC-32 and blob builders -/

/-- `_crc32_table()`: the 256-entry CRC lookup table. -/
def crc32Table : List Nat :=
  (List.range 256).map (fun i =>
    ((List.range 8).foldl
      (fun crc _ => (crc >>> 1) ^^^ (if crc % 2 = 1 then CRC_POLYNOMIAL else 0))
      i) &&& 0xFFFFFFFF)

/-- `compute_metadata_crc(words)`: CRC-32 over `words[0..62]`, init
`0xFFFFFFFF`, polynomial `0xEDB88320`, final inversion, bytes LSB-first. -/
def compute_metadata_crc (words : List Nat) : Nat :=
  let crc := words.dropLast.foldl
    (fun crc w =>
      [0, 8, 16, 24].foldl
        (fun crc shift =>
          let byte := (w >>> shift) &&& 0xFF
          ((crc32Table.getD ((crc ^^^ byte) &&& 0xFF) 0) ^^^ (crc >>> 8)) &&& 0xFFFFFFFF)
        crc)
    0xFFFFFFFF
  crc ^^^ 0xFFFFFFFF

/-- The 64-word metadata record of `build_metadata_blob` before the CRC word. -/
def metadataWords (m : MetadataState) : List Nat :=
  ((((((List.replicate BOOT_META_WORD_COUNT 0).set IDX_MAGIC BOOT_META_MAGIC).set
      IDX_SEQ (u32 m.seq)).set IDX_ACTIVE_SLOT (u32 m.active_slot) |>.set
      IDX_TARGET_SLOT (u32 m.target_slot)).set IDX_STATE (u32 m.state)).set
      IDX_BOOT_COUNT (u32 m.boot_count)).set IDX_MAX_BOOT_COUNT (u32 m.max_boot_count)

/-- `build_metadata_blob(meta_state)`: serialize a `MetadataState` into a
256-byte packed replica; `None` is 256 zero bytes; `valid=False` XORs the
CRC word with `0xDEADBEEF`. -/
def build_metadata_blob : Option MetadataState → List Nat
  | none => List.replicate BOOT_META_REPLICA_SIZE 0
  | some m =>
    let words := metadataWords m
    let crc := compute_metadata_crc words
    let words := words.set IDX_CRC (if m.valid then crc else crc ^^^ 0xDEADBEEF)
    words.flatMap packU32

/-- `build_slot_vectors(slot_state, slot_base)`: the first 8 bytes (SP +
reset vector) for a slot.  The `random` pattern reads 8 bytes from the
global RNG stream `g` starting at position `pos` (Python
`random.getrandbits(8)` each); the pair's second component is the stream
position after the call. -/
def build_slot_vectors (slot : SlotState) (slot_base : Nat) (g : Nat → Nat)
    (pos : Nat) : List Nat × Nat :=
  if slot.content_pattern = "zeros" then
    (List.replicate 8 0, pos)
  else if slot.content_pattern = "random" then
    ((List.range 8).map (fun k => g (pos + k) % 256), pos + 8)
  else if slot.content_pattern = "partial_write" then
    if slot.has_valid_vectors then
      (packU32 (SRAM_START + 0x1000) ++ List.replicate 4 0xFF, pos)
    else
      (List.replicate 8 0xFF, pos)
  else
    if slot.has_valid_vectors then
      let sp := SRAM_START + 0x1000
      let reset_pc := slot_base + 0x100
      let reset_vector := reset_pc ||| 1
      (packU32 sp ++ packU32 reset_vector, pos)
    else
      (packU32 0 ++ packU32 0, pos)

/-! ### `scripts/state_fuzzer.py` — oracle -/

/-- `_seq_ge(a, b)`: wrapping sequence comparison,
`((a - b) mod 2^32) < 2^31`. -/
def _seq_ge (a b : Int) : Bool :=
  decide ((a - b) % 4294967296 < 2147483648)

/-- `_slot_base_for_id(slot_id)`: the NVM base address for a slot ID. -/
def _slot_base_for_id (slot_id : Int) : Nat :=
  if slot_id = 1 then SLOT_B_BASE else SLOT_A_BASE

/-- `_vectors_valid_from_state(slot_state, slot_base)`: whether the
bootloader would consider this slot's vectors valid (SP within SRAM, Thumb
bit set, reset PC within the slot range); second component is the RNG
stream position after the call. -/
def _vectors_valid_from_state (slot : SlotState) (slot_base : Nat)
    (g : Nat → Nat) (pos : Nat) : Bool × Nat :=
  let vp := build_slot_vectors slot slot_base g pos
  let sp := unpackLE32 (vp.1.take 4)
  let reset_vector := unpackLE32 (vp.1.drop 4)
  let reset_pc := reset_vector - reset_vector % 2
  (decide (SRAM_START ≤ sp ∧ sp ≤ SRAM_END ∧ reset_vector % 2 = 1 ∧
    slot_base ≤ reset_pc ∧ reset_pc < slot_base + 0x37000), vp.2)

/-- The replica-validity test of the oracle:
`(replica is not None) and replica.valid`. -/
def replicaValid : Option MetadataState → Bool
  | none => false
  | some m => m.valid

/-- Lines 293-319 of `expected_outcome`: which replica is selected, with the
selection reason (`None` when no replica is valid). -/
def selectReplica (s : FuzzScenario) : Option MetadataState × String :=
  if replicaValid s.replica0 && replicaValid s.replica1 then
    match s.replica0, s.replica1 with
    | some r0, some r1 =>
      if _seq_ge r0.seq r1.seq then
        (some r0, "replica0 wins (seq " ++ intDec r0.seq ++ " >= " ++ intDec r1.seq ++ ")")
      else
        (some r1, "replica1 wins (seq " ++ intDec r1.seq ++ " > " ++ intDec r0.seq ++ ")")
    | _, _ => (none, "")
  else if replicaValid s.replica0 then
    (s.replica0, "only replica0 valid")
  else if replicaValid s.replica1 then
    (s.replica1, "only replica1 valid")
  else
    (none, "no valid replica, defaulting to slot A")

/-- Lines 321-341 of `expected_outcome`: the requested slot from the selected
replica, accounting for the PENDING_TEST revert rule (default slot 0 when no
replica was selected); also extends the selection reason. -/
def requestedSlotOf (selected : Option MetadataState) (selection_reason : String) :
    Int × String :=
  match selected with
  | some sel =>
    let requested_slot := sel.active_slot
    if sel.state = STATE_PENDING_TEST then
      let effective_max := if sel.max_boot_count > 0 then sel.max_boot_count else 3
      if sel.boot_count ≥ effective_max then
        let requested_slot :=
          if requested_slot = 0 then 1 else if requested_slot = 1 then 0 else 0
        (requested_slot,
          selection_reason ++ "; PENDING_TEST exhausted (boot_count=" ++
            intDec sel.boot_count ++ " >= max=" ++ intDec effective_max ++ "), reverted")
      else
        (requested_slot, selection_reason)
    else
      (requested_slot, selection_reason)
  | none => (0, selection_reason)

/-- Lines 343-345 of `expected_outcome`: the oracle's judgment of each slot's
vector validity (slot A first, then slot B, sharing the RNG stream). -/
def slotValidities (s : FuzzScenario) (g : Nat → Nat) : Bool × Bool :=
  let a := _vectors_valid_from_state s.slot_a SLOT_A_BASE g 0
  let b := _vectors_valid_from_state s.slot_b SLOT_B_BASE g a.2
  (a.1, b.1)

/-- Lines 347-411 of `expected_outcome`: slot selection with fallback. -/
def bootFromSlots (requested_slot : Int) (selection_reason : String)
    (slot_a_valid slot_b_valid : Bool) : BootOutcome :=
  if requested_slot = 0 then
    if slot_a_valid then
      ⟨true, some 0, selection_reason ++ "; slot A vectors valid"⟩
    else if slot_b_valid then
      ⟨true, some 1, selection_reason ++ "; slot A invalid, fell back to slot B"⟩
    else
      ⟨false, none, selection_reason ++ "; both slots have invalid vectors"⟩
  else if requested_slot = 1 then
    if slot_b_valid then
      ⟨true, some 1, selection_reason ++ "; slot B vectors valid"⟩
    else if slot_a_valid then
      ⟨true, some 0, selection_reason ++ "; slot B invalid, fell back to slot A"⟩
    else
      ⟨false, none, selection_reason ++ "; both slots have invalid vectors"⟩
  else
    if slot_a_valid then
      ⟨true, some 0, selection_reason ++ "; invalid slot id " ++
        intDec requested_slot ++ ", fell back to slot A"⟩
    else if slot_b_valid then
      ⟨true, some 1, selection_reason ++ "; invalid slot id " ++
        intDec requested_slot ++ ", fell back to slot B"⟩
    else
      ⟨false, none, selection_reason ++ "; invalid slot id " ++
        intDec requested_slot ++ ", both slots invalid"⟩

/-- `expected_outcome(scenario)`: the boot-decision oracle.  `g` is the
global RNG byte stream at call time (consumed only by `random`-pattern
slots). -/
def expected_outcome (s : FuzzScenario) (g : Nat → Nat) : BootOutcome :=
  let sel := selectReplica s
  let rq := requestedSlotOf sel.1 sel.2
  let v := slotValidities s g
  bootFromSlots rq.1 rq.2 v.1 v.2

/-! ### `scripts/state_fuzzer.py` — scenario generators -/

/-- `rng.choice(l)`: one draw `v` from the stream picks `l[v % len(l)]`
(`d` is an unused fallback for the empty list, which never occurs). -/
def pyChoice {α : Type} (l : List α) (d : α) (v : Nat) : α :=
  l.getD (v % l.length) d

/-- `rng.randint(a, b)`: one draw `v` yields `a + v % (b - a + 1)`. -/
def pyRandint (a b : Int) (v : Nat) : Int :=
  a + (v : Int) % (b - a + 1)

/-- `_random_metadata(rng, force_valid)`: a random `MetadataState`; returns
the new stream position as well. -/
def _random_metadata (g : Nat → Nat) (pos : Nat) (force_valid : Option Bool) :
    MetadataState × Nat :=
  let vp : Bool × Nat :=
    match force_valid with
    | some b => (b, pos)
    | none => (pyChoice [true, false] true (g pos), pos + 1)
  let p := vp.2
  (⟨pyRandint 0 0xFFFFFFFF (g p),
    pyChoice [0, 1] 0 (g (p + 1)),
    pyChoice [0, 1] 0 (g (p + 2)),
    pyChoice [STATE_CONFIRMED, STATE_PENDING_TEST] 0 (g (p + 3)),
    pyRandint 0 10 (g (p + 4)),
    pyRandint 1 5 (g (p + 5)),
    vp.1⟩, p + 6)

/-- `_random_slot(rng, force_valid)`: a random `SlotState`; returns the new
stream position as well. -/
def _random_slot (g : Nat → Nat) (pos : Nat) (force_valid : Option Bool) :
    SlotState × Nat :=
  match force_valid with
  | some true => (⟨true, "valid_app"⟩, pos)
  | some false =>
    (⟨false, pyChoice ["zeros", "random", "partial_write"] "zeros" (g pos)⟩, pos + 1)
  | none =>
    let has_valid := pyChoice [true, false] true (g pos)
    let pattern := pyChoice ["valid_app", "zeros", "random", "partial_write"]
      "valid_app" (g (pos + 1))
    (⟨if pattern = "valid_app" then true else has_valid, pattern⟩, pos + 2)

/-- The 18 targeted edge-case scenarios that `generate_scenarios` always
emits first (lines 519-753 of `state_fuzzer.py`). -/
def targetedScenarios : List FuzzScenario :=
  [⟨some ⟨5, 0, 0, STATE_CONFIRMED, 0, 3, true⟩,
    some ⟨3, 1, 1, STATE_CONFIRMED, 0, 3, true⟩,
    ⟨true, "valid_app"⟩, ⟨true, "valid_app"⟩, none,
    "both replicas valid, replica0 higher seq -> slot A"⟩,
   ⟨some ⟨2, 0, 0, STATE_CONFIRMED, 0, 3, true⟩,
    some ⟨7, 1, 1, STATE_CONFIRMED, 0, 3, true⟩,
    ⟨true, "valid_app"⟩, ⟨true, "valid_app"⟩, none,
    "both replicas valid, replica1 higher seq -> slot B"⟩,
   ⟨some ⟨10, 0, 0, STATE_CONFIRMED, 0, 3, false⟩,
    some ⟨8, 1, 1, STATE_CONFIRMED, 0, 3, true⟩,
    ⟨true, "valid_app"⟩, ⟨true, "valid_app"⟩, none,
    "replica0 corrupt, replica1 valid -> slot B"⟩,
   ⟨some ⟨1, 1, 1, STATE_CONFIRMED, 0, 3, false⟩,
    some ⟨2, 1, 1, STATE_CONFIRMED, 0, 3, false⟩,
    ⟨true, "valid_app"⟩, ⟨true, "valid_app"⟩, none,
    "both replicas corrupt -> default slot A"⟩,
   ⟨some ⟨1, 0, 0, STATE_CONFIRMED, 0, 3, false⟩,
    some ⟨1, 0, 0, STATE_CONFIRMED, 0, 3, false⟩,
    ⟨false, "zeros"⟩, ⟨true, "valid_app"⟩, none,
    "both replicas corrupt, default slot A invalid -> fall back to slot B"⟩,
   ⟨some ⟨5, 1, 1, STATE_CONFIRMED, 0, 3, true⟩, none,
    ⟨true, "valid_app"⟩, ⟨false, "zeros"⟩, none,
    "metadata says slot B but slot B invalid -> fall back to A"⟩,
   ⟨some ⟨1, 0, 0, STATE_CONFIRMED, 0, 3, true⟩, none,
    ⟨false, "random"⟩, ⟨false, "zeros"⟩, none,
    "both slots have invalid vectors -> hard fault"⟩,
   ⟨some ⟨0xFFFFFFFF, 0, 0, STATE_CONFIRMED, 0, 3, true⟩,
    some ⟨0x00000001, 1, 1, STATE_CONFIRMED, 0, 3, true⟩,
    ⟨true, "valid_app"⟩, ⟨true, "valid_app"⟩, none,
    "seq wrapping: 0xFFFFFFFF vs 0x00000001 -> replica1 wins (wrapped ahead)"⟩,
   ⟨some ⟨0x80000000, 0, 0, STATE_CONFIRMED, 0, 3, true⟩,
    some ⟨0x00000001, 1, 1, STATE_CONFIRMED, 0, 3, true⟩,
    ⟨true, "valid_app"⟩, ⟨true, "valid_app"⟩, none,
    "seq boundary: 0x80000000 vs 0x00000001 -> replica0 wins (within half-range)"⟩,
   ⟨some ⟨5, 99, 99, STATE_CONFIRMED, 0, 3, true⟩, none,
    ⟨true, "valid_app"⟩, ⟨true, "valid_app"⟩, none,
    "nonexistent slot id 99 -> fall back to slot A"⟩,
   ⟨none, none, ⟨true, "valid_app"⟩, ⟨false, "zeros"⟩, none,
    "all-zero metadata (erased NVM) -> default slot A"⟩,
   ⟨some ⟨3, 0, 0, STATE_CONFIRMED, 0, 3, true⟩,
    some ⟨4, 1, 1, STATE_PENDING_TEST, 0, 3, false⟩,
    ⟨true, "valid_app"⟩, ⟨true, "valid_app"⟩, none,
    "interrupted metadata update: replica1 corrupt -> replica0 wins -> slot A"⟩,
   ⟨some ⟨10, 1, 1, STATE_PENDING_TEST, 3, 3, true⟩,
    some ⟨9, 0, 0, STATE_CONFIRMED, 0, 3, true⟩,
    ⟨true, "valid_app"⟩, ⟨true, "valid_app"⟩, none,
    "pending_test with exhausted boot_count -> slot B (bootloader reads active_slot)"⟩,
   ⟨some ⟨1, 0, 0, STATE_CONFIRMED, 0, 3, true⟩, none,
    ⟨false, "partial_write"⟩, ⟨true, "valid_app"⟩, none,
    "slot A partial write -> fall back to slot B"⟩,
   ⟨some ⟨5, 0, 0, STATE_CONFIRMED, 0, 3, true⟩,
    some ⟨5, 1, 1, STATE_CONFIRMED, 0, 3, true⟩,
    ⟨true, "valid_app"⟩, ⟨true, "valid_app"⟩, none,
    "equal seq -> replica0 wins (seq_ge tie-break) -> slot A"⟩,
   ⟨some ⟨1, 0xFFFFFFFF, 0, STATE_CONFIRMED, 0, 3, true⟩, none,
    ⟨true, "valid_app"⟩, ⟨false, "zeros"⟩, none,
    "max uint32 slot id -> fall back to slot A"⟩,
   ⟨some ⟨0, 0, 0, STATE_CONFIRMED, 0, 3, true⟩,
    some ⟨1, 1, 1, STATE_CONFIRMED, 0, 3, true⟩,
    ⟨true, "valid_app"⟩, ⟨true, "valid_app"⟩, none,
    "seq=0 vs seq=1 -> replica1 wins -> slot B"⟩,
   ⟨none, none, ⟨false, "zeros"⟩, ⟨false, "zeros"⟩, none,
    "totally blank NVM -> hard fault"⟩]

/-- The replica/description part of one random-scenario loop iteration:
`(replica0, replica1, description, stream position)`. -/
def randomReplicas (g : Nat → Nat) (pos : Nat) (i : Nat) :
    Option MetadataState × Option MetadataState × String × Nat :=
  let shape := pyChoice ["both_valid", "one_valid", "both_corrupt", "one_none",
    "both_none", "invalid_slot_id", "seq_boundary", "fully_random"]
    "fully_random" (g pos)
  let p := pos + 1
  if shape = "both_valid" then
    let a := _random_metadata g p (some true)
    let b := _random_metadata g a.2 (some true)
    (some a.1, some b.1,
      "random: both replicas valid (seq " ++ intDec a.1.seq ++ ":" ++
        intDec b.1.seq ++ ")", b.2)
  else if shape = "one_valid" then
    if pyChoice [true, false] true (g p) then
      let a := _random_metadata g (p + 1) (some true)
      if pyChoice [true, false] true (g a.2) then
        let b := _random_metadata g (a.2 + 1) (some false)
        (some a.1, some b.1, "random: replica0 valid, replica1 corrupt", b.2)
      else
        (some a.1, none, "random: replica0 valid, replica1 absent", a.2 + 1)
    else
      if pyChoice [true, false] true (g (p + 1)) then
        let a := _random_metadata g (p + 2) (some false)
        let b := _random_metadata g a.2 (some true)
        (some a.1, some b.1, "random: replica0 corrupt, replica1 valid", b.2)
      else
        let b := _random_metadata g (p + 2) (some true)
        (none, some b.1, "random: replica0 absent, replica1 valid", b.2)
  else if shape = "both_corrupt" then
    let a := _random_metadata g p (some false)
    let b := _random_metadata g a.2 (some false)
    (some a.1, some b.1, "random: both replicas corrupt", b.2)
  else if shape = "one_none" then
    if pyChoice [true, false] true (g p) then
      let a := _random_metadata g (p + 1) none
      (some a.1, none,
        "random: replica0 present (valid=" ++ pyBool a.1.valid ++ "), replica1 absent",
        a.2)
    else
      let b := _random_metadata g (p + 1) none
      (none, some b.1,
        "random: replica0 absent, replica1 present (valid=" ++ pyBool b.1.valid ++ ")",
        b.2)
  else if shape = "both_none" then
    (none, none, "random: both replicas absent (erased NVM)", p)
  else if shape = "invalid_slot_id" then
    let a := _random_metadata g p (some true)
    let inner := pyRandint 2 0xFFFFFFFE (g a.2)
    let slot_id := pyChoice [2, 3, 99, 255, 0xFFFFFFFF, inner] 2 (g (a.2 + 1))
    let a1 : MetadataState := { a.1 with active_slot := slot_id }
    if pyChoice [true, false] true (g (a.2 + 2)) then
      let b := _random_metadata g (a.2 + 3) none
      (some a1, some b.1,
        "random: invalid slot id " ++ intDec slot_id ++ " in replica0", b.2)
    else
      (some a1, none,
        "random: invalid slot id " ++ intDec slot_id ++ " in replica0", a.2 + 3)
  else if shape = "seq_boundary" then
    let a := _random_metadata g p (some true)
    let b := _random_metadata g a.2 (some true)
    let boundary := pyChoice
      [((0xFFFFFFFF : Int), (0x00000000 : Int)), (0xFFFFFFFF, 0x00000001),
       (0x7FFFFFFF, 0x80000000), (0x80000000, 0x7FFFFFFF),
       (0x00000000, 0xFFFFFFFF), (0xFFFFFFFE, 0xFFFFFFFF)]
      (0, 0) (g b.2)
    (some { a.1 with seq := boundary.1 }, some { b.1 with seq := boundary.2 },
      "random: seq boundary test (0x" ++ hexLC boundary.1.natAbs ++ " vs 0x" ++
        hexLC boundary.2.natAbs ++ ")", b.2 + 1)
  else
    if pyChoice [true, false] true (g p) then
      let a := _random_metadata g (p + 1) none
      if pyChoice [true, false] true (g a.2) then
        let b := _random_metadata g (a.2 + 1) none
        (some a.1, some b.1, "random: fully random scenario #" ++ intDec i, b.2)
      else
        (some a.1, none, "random: fully random scenario #" ++ intDec i, a.2 + 1)
    else
      if pyChoice [true, false] true (g (p + 1)) then
        let b := _random_metadata g (p + 2) none
        (none, some b.1, "random: fully random scenario #" ++ intDec i, b.2)
      else
        (none, none, "random: fully random scenario #" ++ intDec i, p + 2)

/-- One iteration of the random-scenario loop of `generate_scenarios`. -/
def randomScenario (g : Nat → Nat) (pos : Nat) (i : Nat) : FuzzScenario × Nat :=
  let r := randomReplicas g pos i
  let sa := _random_slot g r.2.2.2 none
  let sb := _random_slot g sa.2 none
  (⟨r.1, r.2.1, sa.1, sb.1, none, r.2.2.1⟩, sb.2)

/-- The random-scenario loop: `n` iterations starting at loop index `i`. -/
def genLoop (g : Nat → Nat) (pos i : Nat) : Nat → List FuzzScenario
  | 0 => []
  | n + 1 =>
    let r := randomScenario g pos i
    r.1 :: genLoop g r.2 (i + 1) n

/-- `generate_scenarios(count, seed)`: the 18 targeted edge cases followed by
random scenarios, truncated to exactly `count`.  The seeded
`random.Random(seed)` is abstracted as the draw stream `g`. -/
def generate_scenarios (count : Nat) (g : Nat → Nat) : List FuzzScenario :=
  let scenarios := targetedScenarios
  let remaining := count - scenarios.length
  (scenarios ++ genLoop g 0 0 remaining).take count

/-! ### `scripts/mcuboot_state_fuzzer.py` — data model and oracle -/

/-- Trailer magic states. -/
inductive Magic where
  | GOOD | UNSET | BAD | PARTIAL
  deriving DecidableEq

/-- MCUboot swap types. -/
inductive SwapType where
  | NONE | TEST | PERM | REVERT
  deriving DecidableEq

/-- `SwapType.name` as Python's `enum` renders it. -/
def SwapType.pyName : SwapType → String
  | .NONE => "NONE"
  | .TEST => "TEST"
  | .PERM => "PERM"
  | .REVERT => "REVERT"

/-- Trailer flag states (`UNSET=0xFF, SET=0x01, BAD=0x00`). -/
inductive FlagState where
  | UNSET | SET | BAD
  deriving DecidableEq

/-- Oracle boot actions. -/
inductive BootAction where
  | BOOT_SLOT0 | SWAP_AND_BOOT | REVERT | RESUME_SWAP | RESUME_REVERT | STUCK
  deriving DecidableEq

def ERASED_BYTE : Nat := 0xFF

/-- `TrailerState`: full trailer state for one flash slot. -/
structure TrailerState where
  magic : Magic
  image_ok : FlagState
  copy_done : FlagState
  swap_type : SwapType
  swap_size : Int
  sector_status : List Nat
  num_sectors : Nat
  deriving DecidableEq

/-- `MCUbootScenario`: both slots' trailers plus slot validity. -/
structure MCUbootScenario where
  slot0_trailer : TrailerState
  slot1_trailer : TrailerState
  slot0_valid : Bool
  slot1_valid : Bool
  description : String
  deriving DecidableEq

/-- `BootPrediction`: oracle prediction for a scenario. -/
structure BootPrediction where
  action : BootAction
  boots : Bool
  boot_slot : Option Int
  triggers_swap : Bool
  reason : String
  deriving DecidableEq

/-- `_swap_started(t)`: any sector-status byte differs from `0xFF`. -/
def _swap_started (t : TrailerState) : Bool :=
  t.sector_status.any (fun s => s ≠ ERASED_BYTE)

/-- `_swap_incomplete(t)`: sector status is non-empty and some byte differs
from `0x00`. -/
def _swap_incomplete (t : TrailerState) : Bool :=
  (!t.sector_status.isEmpty) && t.sector_status.any (fun s => s ≠ 0x00)

/-- `_boot0(scenario, reason, swap)`: boot slot 0 (or the revert-to-slot-0
action when `swap`). -/
def _boot0 (scenario : MCUbootScenario) (reason : String) (swap : Bool) :
    BootPrediction :=
  ⟨if swap then BootAction.REVERT else BootAction.BOOT_SLOT0,
   scenario.slot0_valid,
   if scenario.slot0_valid then some 0 else none,
   swap, reason⟩

/-- `predict_boot(scenario)`: MCUboot's behavior for the given trailer state
(the ordered decision tree of `mcuboot_state_fuzzer.py`, lines 164-214). -/
def predict_boot (scenario : MCUbootScenario) : BootPrediction :=
  let s0 := scenario.slot0_trailer
  let s1 := scenario.slot1_trailer
  if s0.magic = Magic.GOOD ∧ s0.swap_type = SwapType.REVERT then
    if s1.magic = Magic.GOOD ∧ s1.swap_type = SwapType.REVERT then
      ⟨BootAction.STUCK, false, none, false,
        "both slots swap_type=REVERT (bug #2199); brick or infinite-loop"⟩
    else if _swap_started s0 ∧ _swap_incomplete s0 then
      ⟨BootAction.RESUME_REVERT, scenario.slot0_valid,
        if scenario.slot0_valid then some 0 else none, true,
        "resuming interrupted revert"⟩
    else
      _boot0 scenario "revert requested; swap back and boot slot 0" true
  else if s1.magic = Magic.GOOD ∧ (s1.swap_type = SwapType.TEST ∨ s1.swap_type = SwapType.PERM) then
    if s0.copy_done = FlagState.SET then
      if s0.image_ok = FlagState.SET then
        _boot0 scenario "swap done, image_ok confirmed; normal boot" false
      else if s1.swap_type = SwapType.PERM then
        _boot0 scenario "swap done (PERM); auto-confirmed" false
      else
        _boot0 scenario "swap done but image_ok unset (TEST); revert" true
    else if _swap_started s0 ∨ _swap_started s1 then
      ⟨BootAction.RESUME_SWAP, scenario.slot0_valid || scenario.slot1_valid,
        if scenario.slot0_valid then some 0
          else if scenario.slot1_valid then some 1 else none,
        true, "swap in progress; resuming"⟩
    else
      ⟨BootAction.SWAP_AND_BOOT, scenario.slot1_valid,
        if scenario.slot1_valid then some 0 else none, true,
        "slot 1 magic+swap_type=" ++ s1.swap_type.pyName ++ "; starting swap"⟩
  else if s1.magic = Magic.PARTIAL then
    _boot0 scenario "slot 1 magic partial (interrupted); ignored, boot slot 0" false
  else if s0.magic = Magic.PARTIAL then
    _boot0 scenario "slot 0 magic partial; no swap, boot slot 0" false
  else
    _boot0 scenario "no swap trigger; default boot slot 0" false

/-! ### `scripts/invariants.py` — postcondition framework -/

/-- The typed shape of the `nvm_state` dict as the checks read it (each
`dict.get` is an `Option` field). -/
structure NvmState where
  requested_slot : Option Int
  active_slot : Option Int
  chosen_slot : Option Int
  replica0_valid : Option Bool
  replica1_valid : Option Bool
  slot_a_valid : Option Bool
  slot_b_valid : Option Bool
  replica0_seq : Option Int
  replica1_seq : Option Int
  initial_sp : Option Int
  reset_vector : Option Int
  slot_start : Option Int
  slot_end : Option Int
  deriving DecidableEq

/-- `FaultResult` (from `fault_inject.py`); `nvm_state` is `none` when the
run's state is not a dict. -/
structure FaultResult where
  fault_at : Int
  boot_outcome : String
  boot_slot : Option String
  nvm_state : Option NvmState
  raw_log : String
  is_control : Bool
  deriving DecidableEq

/-- The `pre_state` dict as `check_at_least_one_bootable` reads it. -/
structure PreState where
  replica0_valid : Option Bool
  replica1_valid : Option Bool
  slot_a_valid : Option Bool
  slot_b_valid : Option Bool
  deriving DecidableEq

/-- The keyword context forwarded to each check. -/
structure InvContext where
  pre_state : Option PreState
  write_log : Option (List Int)
  partition_ranges : Option (List (Int × Int))
  deriving DecidableEq

/-- The context with every optional keyword argument omitted. -/
def emptyContext : InvContext := ⟨none, none, none⟩

/-- `InvariantViolation` (its reporting-only `details` dict elided). -/
structure InvariantViolation where
  invariant_name : String
  description : String
  deriving DecidableEq

/-- A check: raises-`InvariantViolation` is `some`, returns-normally is
`none`. -/
def InvariantFn : Type :=
  FaultResult → InvContext → Option InvariantViolation

/-- `check_at_least_one_bootable`. -/
def check_at_least_one_bootable : InvariantFn := fun result ctx =>
  match ctx.pre_state with
  | none => none
  | some pre =>
    let pre_slot_a_valid :=
      match pre.replica0_valid with
      | some b => b
      | none => pre.slot_a_valid.getD false
    let pre_slot_b_valid :=
      match pre.replica1_valid with
      | some b => b
      | none => pre.slot_b_valid.getD false
    if !(pre_slot_a_valid || pre_slot_b_valid) then none
    else if result.boot_outcome ≠ "success" then
      some ⟨"at_least_one_bootable",
        "Device failed to boot (outcome=" ++ pyReprStr result.boot_outcome ++
          ") after a single fault, but the pre-fault state had at least one valid slot (A=" ++
          pyBool pre_slot_a_valid ++ ", B=" ++ pyBool pre_slot_b_valid ++ ")."⟩
    else none

/-- `check_boot_matches_metadata` (`x or y` is Python's falsy-or: a present
`requested_slot` of `0` still falls through to `active_slot`). -/
def check_boot_matches_metadata : InvariantFn := fun result _ =>
  match result.nvm_state with
  | none => none
  | some nvm =>
    let requested : Option Int :=
      match nvm.requested_slot with
      | some v => if v = 0 then nvm.active_slot else some v
      | none => nvm.active_slot
    match requested, nvm.chosen_slot with
    | some req, some chosen =>
      let slot_a_valid :=
        match nvm.replica0_valid with
        | some b => some b
        | none => nvm.slot_a_valid
      let slot_b_valid :=
        match nvm.replica1_valid with
        | some b => some b
        | none => nvm.slot_b_valid
      if ¬(slot_a_valid = some true ∧ slot_b_valid = some true) then none
      else if result.boot_outcome ≠ "success" then none
      else if chosen ≠ req then
        some ⟨"boot_matches_metadata",
          "Metadata requested slot " ++ intDec req ++ " but bootloader chose slot " ++
            intDec chosen ++
            " with both slots valid. This indicates a metadata-interpretation bug."⟩
      else none
    | _, _ => none

/-- `check_metadata_single_fault_consistency`. -/
def check_metadata_single_fault_consistency : InvariantFn := fun result _ =>
  if result.is_control then none
  else
    match result.nvm_state with
    | none => none
    | some nvm =>
      match nvm.replica0_valid, nvm.replica1_valid with
      | some replica0_valid, some replica1_valid =>
        if !replica0_valid && !replica1_valid then
          some ⟨"metadata_single_fault_consistency",
            "Both metadata replicas are invalid after a single fault (fault_at=" ++
              intDec result.fault_at ++
              "). The update protocol must never leave both replicas in a corruptible window simultaneously."⟩
        else none
      | _, _ => none

/-- `check_no_oob_writes`. -/
def check_no_oob_writes : InvariantFn := fun _result ctx =>
  match ctx.write_log, ctx.partition_ranges with
  | some write_log, some partition_ranges =>
    if partition_ranges = [] then none
    else
      let oob_addresses := write_log.filter
        (fun addr => !(partition_ranges.any (fun r => r.1 ≤ addr ∧ addr < r.2)))
      match oob_addresses with
      | [] => none
      | first :: _ =>
        some ⟨"no_oob_writes",
          intDec oob_addresses.length ++
            " write(s) landed outside allowed partition ranges. First offender: 0x" ++
            hexPad8 first ++ "."⟩
  | _, _ => none

def _SRAM_START : Int := 0x20000000
def _SRAM_END : Int := 0x20100000

/-- `check_slot_integrity`. -/
def check_slot_integrity : InvariantFn := fun result _ =>
  if result.boot_outcome ≠ "success" then none
  else
    match result.nvm_state with
    | none => none
    | some nvm =>
      match nvm.initial_sp, nvm.reset_vector with
      | some initial_sp, some reset_vector =>
        let p1 :=
          if ¬(_SRAM_START ≤ initial_sp ∧ initial_sp < _SRAM_END) then
            ["Initial SP 0x" ++ hexPad8 initial_sp ++ " is outside SRAM range [0x" ++
              hexPad8 _SRAM_START ++ ", 0x" ++ hexPad8 _SRAM_END ++ ")."]
          else []
        let p2 :=
          if reset_vector % 2 = 0 then
            ["Reset vector 0x" ++ hexPad8 reset_vector ++ " does not have Thumb bit set."]
          else []
        let p3 :=
          match nvm.slot_start, nvm.slot_end with
          | some slot_start, some se =>
            let rv_addr := reset_vector - reset_vector % 2
            if ¬(slot_start ≤ rv_addr ∧ rv_addr < se) then
              ["Reset vector address 0x" ++ hexPad8 rv_addr ++
                " is outside slot range [0x" ++ hexPad8 slot_start ++ ", 0x" ++
                hexPad8 se ++ ")."]
            else []
          | _, _ => []
        let problems := p1 ++ p2 ++ p3
        if problems = [] then none
        else
          some ⟨"slot_integrity",
            "Boot reported success on slot " ++ pyReprOptStr result.boot_slot ++
              " but vector table looks invalid: " ++ String.intercalate "; " problems⟩
      | _, _ => none

/-- `_ALL_INVARIANTS`: the registered checks, in registration order. -/
def _ALL_INVARIANTS : List InvariantFn :=
  [check_at_least_one_bootable, check_boot_matches_metadata,
   check_metadata_single_fault_consistency, check_no_oob_writes,
   check_slot_integrity]

/-- `run_invariants(result, invariants, **context)`: runs each check,
collects the raised violations into a list (never raises itself);
`invariants=None` means all registered checks. -/
def run_invariants (result : FaultResult) (invariants : Option (List InvariantFn))
    (context : InvContext) : List InvariantViolation :=
  (invariants.getD _ALL_INVARIANTS).filterMap (fun check_fn => check_fn result context)

/-! ### `scripts/geometry_matrix.py` — geometry validation -/

/-- `GeometryConfig`: one NVM memory layout. -/
structure GeometryConfig where
  nvm_size : Int
  word_size : Int
  slot_a_offset : Int
  slot_a_size : Int
  slot_b_offset : Int
  slot_b_size : Int
  metadata_offset : Int
  metadata_size : Int
  sram_size : Int
  name : String
  deriving DecidableEq

/-- The alignment error of `validate_geometry` for one labelled value. -/
def alignmentError (label : String) (value : Int) (ws : Int) : Option String :=
  if value % ws ≠ 0 then
    some (label ++ " (0x" ++ hexUCInt value ++ ") is not aligned to word_size (" ++
      intDec ws ++ " bytes)")
  else none

/-- The labelled offsets/sizes the alignment loop of `validate_geometry`
walks, in order. -/
def alignmentItems (c : GeometryConfig) : List (String × Int) :=
  [("slot_a_offset", c.slot_a_offset), ("slot_a_size", c.slot_a_size),
   ("slot_b_offset", c.slot_b_offset), ("slot_b_size", c.slot_b_size),
   ("metadata_offset", c.metadata_offset), ("metadata_size", c.metadata_size)]

/-- The `(start, end_exclusive, label)` regions of `validate_geometry`. -/
def geometryRegions (c : GeometryConfig) : List (Int × Int × String) :=
  [(c.slot_a_offset, c.slot_a_offset + c.slot_a_size, "slot_a"),
   (c.slot_b_offset, c.slot_b_offset + c.slot_b_size, "slot_b"),
   (c.metadata_offset, c.metadata_offset + c.metadata_size, "metadata")] ++
  (if c.slot_a_offset > 0 then [((0 : Int), c.slot_a_offset, "boot")] else [])

/-- The overlap error message for one ordered pair of regions. -/
def overlapError (a b : Int × Int × String) : Option String :=
  if a.1 < b.2.1 ∧ b.1 < a.2.1 then
    some (a.2.2 ++ " [0x" ++ hexUCInt a.1 ++ ", 0x" ++ hexUCInt a.2.1 ++
      ") overlaps " ++ b.2.2 ++ " [0x" ++ hexUCInt b.1 ++ ", 0x" ++
      hexUCInt b.2.1 ++ ")")
  else none

/-- The pairwise overlap loop of `validate_geometry` (`i < j` order). -/
def overlapErrors : List (Int × Int × String) → List String
  | [] => []
  | r :: rest => rest.filterMap (overlapError r) ++ overlapErrors rest

/-- The Python error message of a `ZeroDivisionError`. -/
def zeroDivisionError : String := "ZeroDivisionError: integer division or modulo by zero"

/-- `validate_geometry(config)`, embedded as the list of collected error
strings (the function raises `ValueError` with all of them joined when the
list is non-empty).  With `word_size = 0` the alignment loop's `value % ws`
raises `ZeroDivisionError` before the errors are reported: the `.error`
case. -/
def validate_geometry_errors (c : GeometryConfig) : Except String (List String) :=
  let errors :=
    (if ¬(c.word_size = 4 ∨ c.word_size = 8) then
      ["word_size must be 4 or 8, got " ++ intDec c.word_size] else []) ++
    (if c.nvm_size ≤ 0 then
      ["nvm_size must be positive, got " ++ intDec c.nvm_size] else []) ++
    (if c.metadata_size < 256 then
      ["metadata_size must be >= 256 (one replica), got " ++ intDec c.metadata_size]
     else []) ++
    (if c.slot_a_size ≤ 0 then
      ["slot_a_size must be positive, got " ++ intDec c.slot_a_size] else []) ++
    (if c.slot_b_size ≤ 0 then
      ["slot_b_size must be positive, got " ++ intDec c.slot_b_size] else []) ++
    (if c.sram_size ≤ 0 then
      ["sram_size must be positive, got " ++ intDec c.sram_size] else [])
  if c.word_size = 0 then Except.error zeroDivisionError
  else
    let errors := errors ++
      (alignmentItems c).filterMap (fun it => alignmentError it.1 it.2 c.word_size)
    let regions := geometryRegions c
    let errors := errors ++ regions.filterMap (fun r =>
      if r.2.1 > c.nvm_size then
        some (r.2.2 ++ " extends past NVM: end 0x" ++ hexUCInt r.2.1 ++
          " > nvm_size 0x" ++ hexUCInt c.nvm_size)
      else none)
    let errors := errors ++ overlapErrors regions
    Except.ok errors

/-- `validate_geometry(config)` itself: `ok` or the joined `ValueError`
message (a `ZeroDivisionError` with `word_size = 0`). -/
def validate_geometry (c : GeometryConfig) : Except String Unit :=
  match validate_geometry_errors c with
  | Except.error e => Except.error e
  | Except.ok [] => Except.ok ()
  | Except.ok errors =>
    Except.error ("Invalid geometry " ++ pyReprStr c.name ++ ": " ++
      String.intercalate "; " errors)

/-! ### `scripts/write_trace_heuristic.py` — fault-point classification -/

/-- Python `min` over a non-empty list (fold from the head). -/
def pyMin (x : Int) (xs : List Int) : Int :=
  xs.foldl min x

/-- Python `max` over a non-empty list (fold from the head). -/
def pyMax (x : Int) (xs : List Int) : Int :=
  xs.foldl max x

/-- `in_any_region(offset, regions)`. -/
def in_any_region (offset : Int) (regions : List (Int × Int)) : Bool :=
  regions.any (fun r => r.1 ≤ offset ∧ offset < r.2)

/-- Pass 1 of `classify_trace`: the indices within `±discontinuity_window`
of an address jump larger than one page. -/
def discontinuityIndices (trace : List (Int × Int)) (page_size : Int)
    (discontinuity_window : Nat) : Finset Nat :=
  (List.range trace.length).foldl
    (fun acc i =>
      if 1 ≤ i ∧ |(trace.getD i (0, 0)).2 - (trace.getD (i - 1) (0, 0)).2| > page_size then
        (List.range' (i - discontinuity_window)
          (min trace.length (i + discontinuity_window + 1) - (i - discontinuity_window))).foldl
          (fun acc2 j => insert j acc2) acc
      else acc)
    ∅

/-- Pass 2 of `classify_trace`: the `(tier1, tier2, tier3)` fault-point sets
(fault point = `write_index - 1`; first matching tier wins). -/
def classifyTiers (trace : List (Int × Int)) (trailer_regions boundary_regions :
    List (Int × Int)) (disc : Finset Nat) : Finset Int × Finset Int × Finset Int :=
  trace.enum.foldl
    (fun acc p =>
      let fault_point := p.2.1 - 1
      let flash_off := p.2.2
      if in_any_region flash_off trailer_regions then
        (insert fault_point acc.1, acc.2.1, acc.2.2)
      else if p.1 ∈ disc then
        (insert fault_point acc.1, acc.2.1, acc.2.2)
      else if in_any_region flash_off boundary_regions then
        (acc.1, insert fault_point acc.2.1, acc.2.2)
      else
        (acc.1, acc.2.1, insert fault_point acc.2.2))
    (∅, ∅, ∅)

/-- The tier-2/3 sampling loop: every index `i` with `i % step == 0`.  With
`step = 0` Python's `i % step` raises `ZeroDivisionError` on the loop's
first iteration, so a non-empty list is the `.error` case. -/
def sampleEvery (step : Int) (l : List Int) : Except String (List Int) :=
  match l with
  | [] => Except.ok []
  | _ =>
    if step = 0 then Except.error zeroDivisionError
    else Except.ok (l.enum.filterMap
      (fun p => if (p.1 : Int) % step = 0 then some p.2 else none))

/-- `classify_trace(trace, slot_ranges, flash_base, page_size, tier2_step,
tier3_step, discontinuity_window)`: the sorted fault-point list
(`slot_ranges` keeps the dict's values in insertion order). -/
def classify_trace (trace : List (Int × Int)) (slot_ranges : List (Int × Int))
    (flash_base page_size tier2_step tier3_step : Int)
    (discontinuity_window : Nat) : Except String (List Int) :=
  match trace with
  | [] => Except.ok []
  | t0 :: trest =>
    let trailer_regions := slot_ranges.map
      (fun r => (r.2 - page_size - flash_base, r.2 - flash_base))
    let boundary_regions := slot_ranges.flatMap
      (fun r => [(r.1 - flash_base, r.1 - flash_base + page_size),
                 (r.2 - page_size - flash_base, r.2 - flash_base)])
    let disc := discontinuityIndices (t0 :: trest) page_size discontinuity_window
    let tiers := classifyTiers (t0 :: trest) trailer_regions boundary_regions disc
    let tier1 := tiers.1
    let tier2 := tiers.2.1
    let tier3 := tiers.2.2
    match sampleEvery tier2_step ((tier2 \ tier1).sort (· ≤ ·)) with
    | Except.error e => Except.error e
    | Except.ok sampled2 =>
      match sampleEvery tier3_step (((tier3 \ tier1) \ tier2).sort (· ≤ ·)) with
      | Except.error e => Except.error e
      | Except.ok sampled3 =>
        let selected := tier1 ∪ sampled2.toFinset ∪ sampled3.toFinset
        let all_fps := (t0 :: trest).map (fun w => w.1 - 1)
        let selected :=
          match all_fps with
          | [] => selected
          | x :: xs => insert (pyMin x xs) (insert (pyMax x xs) selected)
        Except.ok (selected.sort (· ≤ ·))

/-! ### Concrete inputs used by the claim theorems -/

/-- The requested slot the oracle derives for a scenario (selection composed
with the revert rule), exactly as `expected_outcome` computes it. -/
def oracleRequestedSlot (s : FuzzScenario) : Int :=
  (requestedSlotOf (selectReplica s).1 (selectReplica s).2).1

/-- The all-zeros RNG draw stream. -/
def exStreamZero : Nat → Nat := fun _ => 0

/-- The all-ones RNG draw stream. -/
def exStreamOne : Nat → Nat := fun _ => 1

/-- A draw stream whose first eight bytes decode to a valid slot-A vector
table (SP `0x20000000`, reset vector `0x10002101`). -/
def exStreamVec : Nat → Nat := fun n =>
  [0, 0, 0, 0x20, 0x01, 0x21, 0x00, 0x10].getD n 0

/-- A scenario whose slot A has the `random` content pattern. -/
def exScenarioRandom : FuzzScenario :=
  ⟨none, none, ⟨false, "random"⟩, ⟨false, "zeros"⟩, none,
   "slot A random content, slot B zeroed"⟩

/-- A scenario with two valid replicas at the wraparound boundary. -/
def exScenarioWrap : FuzzScenario :=
  ⟨some ⟨0xFFFFFFFF, 0, 0, STATE_CONFIRMED, 0, 3, true⟩,
   some ⟨0x00000001, 1, 1, STATE_CONFIRMED, 0, 3, true⟩,
   ⟨true, "valid_app"⟩, ⟨true, "valid_app"⟩, none, "wraparound"⟩

/-- A scenario whose selected replica is PENDING_TEST with exhausted boot
budget. -/
def exScenarioRevert : FuzzScenario :=
  ⟨some ⟨10, 1, 1, STATE_PENDING_TEST, 3, 3, true⟩, none,
   ⟨true, "valid_app"⟩, ⟨true, "valid_app"⟩, none, "revert budget exhausted"⟩

/-- A scenario with both slots `valid_app` and no metadata. -/
def exScenarioPlain : FuzzScenario :=
  ⟨none, none, ⟨true, "valid_app"⟩, ⟨true, "valid_app"⟩, none, "plain"⟩

/-- MCUboot scenario: slot 0 requests a revert while slot 1 holds a partial
magic. -/
def exMCUbootPartialRevert : MCUbootScenario :=
  ⟨⟨Magic.GOOD, FlagState.UNSET, FlagState.UNSET, SwapType.REVERT, 0xFFFFFFFF, [], 0⟩,
   ⟨Magic.PARTIAL, FlagState.UNSET, FlagState.UNSET, SwapType.NONE, 0xFFFFFFFF, [], 0⟩,
   true, true, "slot 0 revert pending, slot 1 magic partial"⟩

/-- MCUboot scenario: slot 1 holds a partial magic and no other trigger. -/
def exMCUbootPartialPlain : MCUbootScenario :=
  ⟨⟨Magic.UNSET, FlagState.UNSET, FlagState.UNSET, SwapType.NONE, 0xFFFFFFFF, [], 0⟩,
   ⟨Magic.PARTIAL, FlagState.UNSET, FlagState.UNSET, SwapType.TEST, 0xFFFFFFFF, [], 0⟩,
   true, true, "slot 1 magic partial, no other trigger"⟩

/-- A `FaultResult` whose NVM state shows both replicas invalid after a
non-control run. -/
def exFaultResultBothInvalid : FaultResult :=
  ⟨10, "hard_fault", none,
   some ⟨none, none, none, some false, some false, none, none, none, none,
     none, none, none, none⟩,
   "", false⟩

/-- A `FaultResult` carrying no NVM state dict. -/
def exFaultResultNoNvm : FaultResult :=
  ⟨0, "success", none, none, "", false⟩

/-- A geometry whose slot regions overlap (word size 4). -/
def exGeometryOverlap : GeometryConfig :=
  ⟨0x100000, 4, 0x1000, 0x10000, 0x8000, 0x10000, 0x80000, 512, 0x8000, "overlap"⟩

/-- The overlapping geometry with `word_size = 0`. -/
def exGeometryWordZero : GeometryConfig :=
  ⟨0x100000, 0, 0x1000, 0x10000, 0x8000, 0x10000, 0x80000, 512, 0x8000, "wordzero"⟩

/-- The slot-A/slot-B overlap error message of `validate_geometry`. -/
def slotOverlapMessage (c : GeometryConfig) : String :=
  "slot_a" ++ " [0x" ++ hexUCInt c.slot_a_offset ++ ", 0x" ++
    hexUCInt (c.slot_a_offset + c.slot_a_size) ++ ") overlaps " ++ "slot_b" ++
    " [0x" ++ hexUCInt c.slot_b_offset ++ ", 0x" ++
    hexUCInt (c.slot_b_offset + c.slot_b_size) ++ ")"

/-- Python `min(l)` for a list destructured as `x :: xs` (guarded by the
caller's non-emptiness check, as `min` raises on an empty list). -/
def pyMinL : List Int → Int
  | [] => 0
  | x :: xs => pyMin x xs

/-- Python `max(l)` for a list destructured as `x :: xs`. -/
def pyMaxL : List Int → Int
  | [] => 0
  | x :: xs => pyMax x xs

/-! ### Helper lemmas -/

lemma flatMap_packU32_length (l : List Nat) :
    (l.flatMap packU32).length = 4 * l.length := by
  induction l with
  | nil => rfl
  | cons x xs ih =>
    simp only [List.flatMap_cons, List.length_append, List.length_cons, ih, packU32]
    simp [Nat.mul_succ, Nat.add_comm]

lemma metadataWords_length (m : MetadataState) :
    (metadataWords m).length = 64 := by
  simp [metadataWords, List.length_set, List.length_replicate, BOOT_META_WORD_COUNT,
    BOOT_META_REPLICA_SIZE]

lemma bootFromSlots_wf (rq : Int) (reason : String) (aV bV : Bool) :
    ((bootFromSlots rq reason aV bV).boots = true →
      ((bootFromSlots rq reason aV bV).boot_slot = some 0 ∧ aV = true) ∨
      ((bootFromSlots rq reason aV bV).boot_slot = some 1 ∧ bV = true))
    ∧ ((bootFromSlots rq reason aV bV).boots = false →
      (bootFromSlots rq reason aV bV).boot_slot = none)
    ∧ ((bootFromSlots rq reason aV bV).boots = false ↔ aV = false ∧ bV = false) := by
  unfold bootFromSlots
  split_ifs <;> simp_all

/-- C8: `build_metadata_blob` is a pure function of its argument (two calls
on the same value are byte-identical), its output is always 256 bytes, and
`build_metadata_blob(None)` is exactly 256 zero bytes (not `0xFF`). -/
theorem c8_metadata_blob_idempotent_and_zero (m : Option MetadataState) :
    build_metadata_blob m = build_metadata_blob m
    ∧ (build_metadata_blob m).length = BOOT_META_REPLICA_SIZE
    ∧ build_metadata_blob none = List.replicate BOOT_META_REPLICA_SIZE 0 := by
  refine ⟨rfl, ?_, rfl⟩
  cases m with
  | none => simp [build_metadata_blob]
  | some st =>
    show (((metadataWords st).set IDX_CRC
      (if st.valid then compute_metadata_crc (metadataWords st)
       else compute_metadata_crc (metadataWords st) ^^^ 0xDEADBEEF)).flatMap
        packU32).length = BOOT_META_REPLICA_SIZE
    rw [flatMap_packU32_length, List.length_set, metadataWords_length]
    rfl

/-- C10: well-formedness of every oracle outcome: a `boots=True` outcome
boots a slot (0 or 1) that the oracle judged to have valid vectors, a
`boots=False` outcome has `boot_slot=None`, and `boots=False` holds exactly
when both slots' vectors are judged invalid — metadata corruption or
absence alone never predicts a non-boot while some slot is valid. -/
theorem c10_oracle_outcome_wellformed (s : FuzzScenario) (g : Nat → Nat) :
    ((expected_outcome s g).boots = true →
      ((expected_outcome s g).boot_slot = some 0 ∧ (slotValidities s g).1 = true) ∨
      ((expected_outcome s g).boot_slot = some 1 ∧ (slotValidities s g).2 = true))
    ∧ ((expected_outcome s g).boots = false → (expected_outcome s g).boot_slot = none)
    ∧ ((expected_outcome s g).boots = false ↔
      (slotValidities s g).1 = false ∧ (slotValidities s g).2 = false) :=
  bootFromSlots_wf _ _ _ _

/-- C2 counterexample: a scenario with `slot1.magic = PARTIAL` for which
`predict_boot` nevertheless returns `triggers_swap = True` — slot 0 is in
the revert state, and the revert path precedes the partial-magic guard. -/
theorem c2_partial_magic_counterexample :
    exMCUbootPartialRevert.slot1_trailer.magic = Magic.PARTIAL
    ∧ (predict_boot exMCUbootPartialRevert).triggers_swap = true :=
  ⟨rfl, rfl⟩

/-- C2 (amended): when slot 1's (or slot 0's) trailer magic is PARTIAL and
neither the revert path (slot 0 magic GOOD with swap_type REVERT) nor the
upgrade path (slot 1 magic GOOD with swap_type TEST or PERM) applies,
`predict_boot` never triggers a swap and predicts booting slot 0
(`boots = slot0_valid`, `boot_slot = 0` when slot 0 is valid, else none). -/
theorem c2_partial_magic_no_swap (sc : MCUbootScenario)
    (hp : sc.slot1_trailer.magic = Magic.PARTIAL ∨
      sc.slot0_trailer.magic = Magic.PARTIAL)
    (hrev : ¬(sc.slot0_trailer.magic = Magic.GOOD ∧
      sc.slot0_trailer.swap_type = SwapType.REVERT))
    (hswap : ¬(sc.slot1_trailer.magic = Magic.GOOD ∧
      (sc.slot1_trailer.swap_type = SwapType.TEST ∨
        sc.slot1_trailer.swap_type = SwapType.PERM))) :
    (predict_boot sc).triggers_swap = false
    ∧ (predict_boot sc).action = BootAction.BOOT_SLOT0
    ∧ (predict_boot sc).boots = sc.slot0_valid
    ∧ (predict_boot sc).boot_slot = (if sc.slot0_valid then some 0 else none) := by
  have hpb : predict_boot sc =
      _boot0 sc
        (if sc.slot1_trailer.magic = Magic.PARTIAL then
          "slot 1 magic partial (interrupted); ignored, boot slot 0"
         else if sc.slot0_trailer.magic = Magic.PARTIAL then
          "slot 0 magic partial; no swap, boot slot 0"
         else "no swap trigger; default boot slot 0") false := by
    unfold predict_boot
    rw [if_neg hrev, if_neg hswap]
    by_cases h1 : sc.slot1_trailer.magic = Magic.PARTIAL
    · rw [if_pos h1, if_pos h1]
    · rcases hp with hp1 | hp0
      · exact absurd hp1 h1
      · rw [if_neg h1, if_neg h1, if_pos hp0, if_pos hp0]
  rw [hpb]
  exact ⟨rfl, rfl, rfl, rfl⟩

/-- C2 witness: the amended theorem at a concrete scenario (slot 1 magic
PARTIAL, no competing revert/upgrade trigger). -/
theorem c2_witness :
    (predict_boot exMCUbootPartialPlain).triggers_swap = false
    ∧ (predict_boot exMCUbootPartialPlain).action = BootAction.BOOT_SLOT0
    ∧ (predict_boot exMCUbootPartialPlain).boots = exMCUbootPartialPlain.slot0_valid
    ∧ (predict_boot exMCUbootPartialPlain).boot_slot =
      (if exMCUbootPartialPlain.slot0_valid then some 0 else none) :=
  c2_partial_magic_no_swap exMCUbootPartialPlain (Or.inl rfl) (by decide) (by decide)

lemma seq_ge_self (a : Int) : _seq_ge a a = true := by
  simp [_seq_ge]

/-- C1: replica selection under 32-bit wraparound.  With both replicas
present and valid, the oracle of `expected_outcome` selects the replica
whose sequence number is greater under `_seq_ge` (ties select replica0);
in particular `seq0=0xFFFFFFFF, seq1=0x00000001` selects replica1 and
`seq0=0x80000000, seq1=0x00000001` selects replica0. -/
theorem c1_replica_selection_wraparound (s : FuzzScenario) (r0 r1 : MetadataState)
    (h0 : s.replica0 = some r0) (h1 : s.replica1 = some r1)
    (hv0 : r0.valid = true) (hv1 : r1.valid = true) :
    (selectReplica s).1 = some (if _seq_ge r0.seq r1.seq then r0 else r1)
    ∧ (r0.seq = r1.seq → (selectReplica s).1 = some r0)
    ∧ (r0.seq = 0xFFFFFFFF → r1.seq = 0x00000001 → (selectReplica s).1 = some r1)
    ∧ (r0.seq = 0x80000000 → r1.seq = 0x00000001 → (selectReplica s).1 = some r0) := by
  have hsel : (selectReplica s).1 =
      if _seq_ge r0.seq r1.seq then some r0 else some r1 := by
    unfold selectReplica
    rw [h0, h1]
    simp [replicaValid, hv0, hv1, apply_ite Prod.fst]
  refine ⟨?_, ?_, ?_, ?_⟩
  · rw [hsel, apply_ite some]
  · intro heq
    rw [hsel, heq, seq_ge_self, if_pos rfl]
  · intro hs0 hs1
    have : _seq_ge r0.seq r1.seq = false := by rw [hs0, hs1]; decide
    rw [hsel, this]
    simp
  · intro hs0 hs1
    have : _seq_ge r0.seq r1.seq = true := by rw [hs0, hs1]; decide
    rw [hsel, this]
    simp

/-- C1 witness: the selection theorem at the wraparound scenario
(`seq0=0xFFFFFFFF, seq1=0x00000001`, both valid): replica1 is selected. -/
theorem c1_witness :
    (selectReplica exScenarioWrap).1 =
      some (if _seq_ge 0xFFFFFFFF 0x00000001 then
        ⟨0xFFFFFFFF, 0, 0, STATE_CONFIRMED, 0, 3, true⟩
      else ⟨0x00000001, 1, 1, STATE_CONFIRMED, 0, 3, true⟩)
    ∧ ((0xFFFFFFFF : Int) = 0x00000001 → (selectReplica exScenarioWrap).1 =
      some ⟨0xFFFFFFFF, 0, 0, STATE_CONFIRMED, 0, 3, true⟩)
    ∧ ((0xFFFFFFFF : Int) = 0xFFFFFFFF → (0x00000001 : Int) = 0x00000001 →
      (selectReplica exScenarioWrap).1 =
        some ⟨0x00000001, 1, 1, STATE_CONFIRMED, 0, 3, true⟩)
    ∧ ((0xFFFFFFFF : Int) = 0x80000000 → (0x00000001 : Int) = 0x00000001 →
      (selectReplica exScenarioWrap).1 =
        some ⟨0xFFFFFFFF, 0, 0, STATE_CONFIRMED, 0, 3, true⟩) :=
  c1_replica_selection_wraparound exScenarioWrap _ _ rfl rfl rfl rfl

lemma requestedSlotOf_some (m : MetadataState) (r : String) :
    (requestedSlotOf (some m) r).1 =
      if m.state = STATE_PENDING_TEST ∧
          m.boot_count ≥ (if m.max_boot_count > 0 then m.max_boot_count else 3) then
        (if m.active_slot = 0 then 1 else if m.active_slot = 1 then 0 else 0)
      else m.active_slot := by
  unfold requestedSlotOf
  by_cases hst : m.state = STATE_PENDING_TEST
  · by_cases hbc : m.boot_count ≥ (if m.max_boot_count > 0 then m.max_boot_count else 3)
    · simp [hst, hbc]
    · simp [hst, hbc]
  · simp [hst]

/-- C7: the revert rule.  When the selected replica is PENDING_TEST with
`boot_count` at least the effective maximum (`max_boot_count` when positive,
else the firmware-default 3), the oracle's requested slot is the flipped
`active_slot` (0 to 1, 1 to 0, anything else to 0); otherwise it is the
selected replica's `active_slot` unchanged. -/
theorem c7_revert_rule (s : FuzzScenario) (m : MetadataState)
    (hm : (selectReplica s).1 = some m) :
    (m.state = STATE_PENDING_TEST →
      m.boot_count ≥ (if m.max_boot_count > 0 then m.max_boot_count else 3) →
      oracleRequestedSlot s =
        (if m.active_slot = 0 then 1 else if m.active_slot = 1 then 0 else 0))
    ∧ (¬(m.state = STATE_PENDING_TEST ∧
        m.boot_count ≥ (if m.max_boot_count > 0 then m.max_boot_count else 3)) →
      oracleRequestedSlot s = m.active_slot) := by
  unfold oracleRequestedSlot
  rw [hm, requestedSlotOf_some]
  constructor
  · intro hst hbc
    rw [if_pos ⟨hst, hbc⟩]
  · intro hnot
    rw [if_neg hnot]

/-- C7 witness: the revert rule at a concrete scenario whose selected
replica is PENDING_TEST with `boot_count = max_boot_count = 3` and
`active_slot = 1`: the requested slot flips to 0. -/
theorem c7_witness :
    (STATE_PENDING_TEST = STATE_PENDING_TEST →
      (3 : Int) ≥ (if (3 : Int) > 0 then (3 : Int) else 3) →
      oracleRequestedSlot exScenarioRevert =
        (if (1 : Int) = 0 then 1 else if (1 : Int) = 1 then 0 else 0))
    ∧ (¬(STATE_PENDING_TEST = STATE_PENDING_TEST ∧
        (3 : Int) ≥ (if (3 : Int) > 0 then (3 : Int) else 3)) →
      oracleRequestedSlot exScenarioRevert = 1) :=
  c7_revert_rule exScenarioRevert ⟨10, 1, 1, STATE_PENDING_TEST, 3, 3, true⟩ rfl

lemma build_slot_vectors_no_random (slot : SlotState) (base : Nat)
    (g1 g2 : Nat → Nat) (pos1 pos2 : Nat) (h : slot.content_pattern ≠ "random") :
    (build_slot_vectors slot base g1 pos1).1 = (build_slot_vectors slot base g2 pos2).1
    ∧ (build_slot_vectors slot base g1 pos1).2 = pos1
    ∧ (build_slot_vectors slot base g2 pos2).2 = pos2 := by
  unfold build_slot_vectors
  split_ifs <;> simp_all

lemma vectors_valid_no_random (slot : SlotState) (base : Nat)
    (g1 g2 : Nat → Nat) (pos1 pos2 : Nat) (h : slot.content_pattern ≠ "random") :
    (_vectors_valid_from_state slot base g1 pos1).1 =
      (_vectors_valid_from_state slot base g2 pos2).1
    ∧ (_vectors_valid_from_state slot base g1 pos1).2 = pos1 := by
  obtain ⟨hv, hp1, _⟩ := build_slot_vectors_no_random slot base g1 g2 pos1 pos2 h
  simp only [_vectors_valid_from_state]
  rw [hv, hp1]
  exact ⟨rfl, rfl⟩

lemma slotValidities_no_random (s : FuzzScenario) (g1 g2 : Nat → Nat)
    (ha : s.slot_a.content_pattern ≠ "random")
    (hb : s.slot_b.content_pattern ≠ "random") :
    slotValidities s g1 = slotValidities s g2 := by
  have hva := (vectors_valid_no_random s.slot_a SLOT_A_BASE g1 g2 0 0 ha).1
  have hpa := (vectors_valid_no_random s.slot_a SLOT_A_BASE g1 g2 0 0 ha).2
  have hpa2 := (vectors_valid_no_random s.slot_a SLOT_A_BASE g2 g2 0 0 ha).2
  have hvb := (vectors_valid_no_random s.slot_b SLOT_B_BASE g1 g2 0 0 hb).1
  simp only [slotValidities]
  rw [hpa, hpa2, hva, hvb]

/-- C3 counterexample: `expected_outcome` is not a function of the scenario
alone — on a scenario whose slot A has the `random` content pattern, two
different global-RNG streams yield different `BootOutcome` values (one
boots from slot A, the other predicts a non-boot). -/
theorem c3_oracle_rng_counterexample :
    expected_outcome exScenarioRandom exStreamVec ≠
      expected_outcome exScenarioRandom exStreamZero := by
  decide

/-- C3 (amended): the A/B oracle is deterministic on every scenario in which
neither slot uses the `random` content pattern: the outcome is then
independent of the global RNG stream, so two calls on equal scenarios agree.
(For a `random` slot the outcome reads the shared global `random` module
state, as the counterexample shows.) -/
theorem c3_oracle_deterministic_without_random (s : FuzzScenario)
    (g1 g2 : Nat → Nat)
    (ha : s.slot_a.content_pattern ≠ "random")
    (hb : s.slot_b.content_pattern ≠ "random") :
    expected_outcome s g1 = expected_outcome s g2 := by
  unfold expected_outcome
  rw [slotValidities_no_random s g1 g2 ha hb]

/-- C3 witness: determinism at a concrete scenario without `random` slots. -/
theorem c3_witness :
    expected_outcome exScenarioPlain exStreamZero =
      expected_outcome exScenarioPlain exStreamOne :=
  c3_oracle_deterministic_without_random exScenarioPlain exStreamZero exStreamOne
    (by decide) (by decide)

/-- C4 counterexample: with every optional context argument omitted,
`run_invariants` on a well-formed `FaultResult` (a non-control run whose
NVM state records both replicas invalid) returns a non-empty list —
`check_metadata_single_fault_consistency` needs no context, so the result
is not `[]`. -/
theorem c4_run_invariants_counterexample :
    run_invariants exFaultResultBothInvalid none emptyContext ≠ [] := by
  decide

/-- C4 (amended): `run_invariants` never raises and always returns the
(possibly empty) list of collected violations; with all optional context
omitted the context-requiring checks self-skip, but result-only checks can
still fire, so the list is empty only under a further condition — here,
when the result carries no `nvm_state` dict. -/
theorem c4_run_invariants_empty_without_nvm (r : FaultResult)
    (h : r.nvm_state = none) :
    run_invariants r none emptyContext = [] := by
  simp only [run_invariants, _ALL_INVARIANTS, Option.getD, List.filterMap,
    check_at_least_one_bootable, check_boot_matches_metadata,
    check_metadata_single_fault_consistency, check_no_oob_writes,
    check_slot_integrity, emptyContext, h]
  split_ifs <;> rfl

/-- C4 witness: the empty-result case at a concrete `FaultResult` with no
NVM state and no context. -/
theorem c4_witness :
    run_invariants exFaultResultNoNvm none emptyContext = [] :=
  c4_run_invariants_empty_without_nvm exFaultResultNoNvm rfl

/-- C5 counterexample: a config whose slot regions overlap but whose
validation does not produce an error report — with `word_size = 0` the
alignment check's `value % word_size` raises `ZeroDivisionError` before any
errors are reported. -/
theorem c5_geometry_counterexample :
    exGeometryWordZero.slot_a_offset <
      exGeometryWordZero.slot_b_offset + exGeometryWordZero.slot_b_size
    ∧ exGeometryWordZero.slot_b_offset <
      exGeometryWordZero.slot_a_offset + exGeometryWordZero.slot_a_size
    ∧ validate_geometry_errors exGeometryWordZero = Except.error zeroDivisionError :=
  ⟨by decide, by decide, rfl⟩

/-- C5 (amended): geometry validation is batch, not fail-fast — for every
config with `word_size ≠ 0` (with `word_size = 0` the alignment loop raises
`ZeroDivisionError`) whose slot_a and slot_b regions overlap
(`a_start < b_end` and `b_start < a_end`), the collected error list contains
the slot_a/slot_b overlap error (whatever other violations are present) and
is therefore non-empty. -/
theorem c5_geometry_overlap_reported (c : GeometryConfig)
    (hws : c.word_size ≠ 0)
    (h1 : c.slot_a_offset < c.slot_b_offset + c.slot_b_size)
    (h2 : c.slot_b_offset < c.slot_a_offset + c.slot_a_size) :
    ∃ errors, validate_geometry_errors c = Except.ok errors ∧
      slotOverlapMessage c ∈ errors ∧ errors ≠ [] := by
  have hov : overlapError
      (c.slot_a_offset, c.slot_a_offset + c.slot_a_size, "slot_a")
      (c.slot_b_offset, c.slot_b_offset + c.slot_b_size, "slot_b") =
      some (slotOverlapMessage c) := by
    simp only [overlapError, slotOverlapMessage]
    rw [if_pos ⟨h1, h2⟩]
  have hmem : slotOverlapMessage c ∈ overlapErrors (geometryRegions c) := by
    show slotOverlapMessage c ∈ overlapErrors
      ((c.slot_a_offset, c.slot_a_offset + c.slot_a_size, "slot_a") ::
        (c.slot_b_offset, c.slot_b_offset + c.slot_b_size, "slot_b") ::
        (c.metadata_offset, c.metadata_offset + c.metadata_size, "metadata") ::
        (if c.slot_a_offset > 0 then [((0 : Int), c.slot_a_offset, "boot")] else []))
    rw [overlapErrors]
    apply List.mem_append_left
    exact List.mem_filterMap.mpr ⟨_, List.mem_cons_self _ _, hov⟩
  unfold validate_geometry_errors
  rw [if_neg hws]
  refine ⟨_, rfl, ?_, ?_⟩
  · exact List.mem_append_right _ hmem
  · exact List.ne_nil_of_mem (List.mem_append_right _ hmem)

/-- C5 witness: the overlap-report theorem at a concrete overlapping
geometry. -/
theorem c5_witness :
    ∃ errors, validate_geometry_errors exGeometryOverlap = Except.ok errors ∧
      slotOverlapMessage exGeometryOverlap ∈ errors ∧ errors ≠ [] :=
  c5_geometry_overlap_reported exGeometryOverlap (by decide) (by decide) (by decide)

lemma sampleEvery_eq_ok {step : Int} (h : step ≠ 0) (l : List Int) :
    sampleEvery step l = Except.ok (l.enum.filterMap
      (fun p => if (p.1 : Int) % step = 0 then some p.2 else none)) := by
  cases l <;> simp [sampleEvery, h]

lemma pyMin_sub_one (xs : List Int) (x : Int) :
    pyMin (x - 1) (xs.map (fun w => w - 1)) = pyMin x xs - 1 := by
  induction xs generalizing x with
  | nil => rfl
  | cons y ys ih =>
    show pyMin (min (x - 1) (y - 1)) (ys.map (fun w => w - 1)) = pyMin (min x y) ys - 1
    rw [show min (x - 1) (y - 1) = min x y - 1 by omega]
    exact ih (min x y)

lemma pyMax_sub_one (xs : List Int) (x : Int) :
    pyMax (x - 1) (xs.map (fun w => w - 1)) = pyMax x xs - 1 := by
  induction xs generalizing x with
  | nil => rfl
  | cons y ys ih =>
    show pyMax (max (x - 1) (y - 1)) (ys.map (fun w => w - 1)) = pyMax (max x y) ys - 1
    rw [show max (x - 1) (y - 1) = max x y - 1 by omega]
    exact ih (max x y)

lemma pyMin_fst_sub_one (t0 : Int × Int) (trest : List (Int × Int)) :
    pyMin (t0.1 - 1) (trest.map (fun w => w.1 - 1)) =
      pyMin t0.1 (trest.map Prod.fst) - 1 := by
  rw [show (fun w : Int × Int => w.1 - 1) = ((fun w : Int => w - 1) ∘ Prod.fst) from rfl,
    ← List.map_map]
  exact pyMin_sub_one _ _

lemma pyMax_fst_sub_one (t0 : Int × Int) (trest : List (Int × Int)) :
    pyMax (t0.1 - 1) (trest.map (fun w => w.1 - 1)) =
      pyMax t0.1 (trest.map Prod.fst) - 1 := by
  rw [show (fun w : Int × Int => w.1 - 1) = ((fun w : Int => w - 1) ∘ Prod.fst) from rfl,
    ← List.map_map]
  exact pyMax_sub_one _ _

/-- C6 counterexample: "any parameters" fails — with `tier2_step = 0` and a
non-empty trace whose first write falls in a boundary (tier-2) region, the
sampling loop's `i % tier2_step` raises `ZeroDivisionError`, so no
fault-point list is returned at all. -/
theorem c6_classify_trace_counterexample :
    ([((1 : Int), (0 : Int))] : List (Int × Int)) ≠ []
    ∧ classify_trace [((1 : Int), (0 : Int))] [((0 : Int), 8192)] 0 4096 0 100 3 =
      Except.error zeroDivisionError := by
  constructor
  · decide
  · simp only [classify_trace]
    rw [show (classifyTiers [((1 : Int), (0 : Int))]
        (List.map (fun r => (r.2 - 4096 - 0, r.2 - 0)) [((0 : Int), (8192 : Int))])
        ([((0 : Int), (8192 : Int))].flatMap fun r =>
          [(r.1 - 0, r.1 - 0 + 4096), (r.2 - 4096 - 0, r.2 - 0)])
        (discontinuityIndices [((1 : Int), (0 : Int))] 4096 3)).2.1 \
      (classifyTiers [((1 : Int), (0 : Int))]
        (List.map (fun r => (r.2 - 4096 - 0, r.2 - 0)) [((0 : Int), (8192 : Int))])
        ([((0 : Int), (8192 : Int))].flatMap fun r =>
          [(r.1 - 0, r.1 - 0 + 4096), (r.2 - 4096 - 0, r.2 - 0)])
        (discontinuityIndices [((1 : Int), (0 : Int))] 4096 3)).1 =
      ({0} : Finset Int) by decide]
    rw [Finset.sort_singleton]
    rfl

/-- C6 (amended): boundary guarantee of the write-trace heuristic — for
every non-empty trace and any slot ranges and parameters with non-zero
sampling steps (a zero step raises `ZeroDivisionError` when its tier is
non-empty), `classify_trace` returns a fault-point list containing both
`min(write_index) - 1` and `max(write_index) - 1` over the whole trace. -/
theorem c6_classify_trace_boundary_guarantee (trace : List (Int × Int))
    (slot_ranges : List (Int × Int)) (flash_base page_size : Int)
    (tier2_step tier3_step : Int) (discontinuity_window : Nat)
    (hne : trace ≠ []) (h2 : tier2_step ≠ 0) (h3 : tier3_step ≠ 0) :
    ∃ fault_points,
      classify_trace trace slot_ranges flash_base page_size tier2_step tier3_step
        discontinuity_window = Except.ok fault_points
      ∧ pyMinL (trace.map Prod.fst) - 1 ∈ fault_points
      ∧ pyMaxL (trace.map Prod.fst) - 1 ∈ fault_points := by
  match trace, hne with
  | t0 :: trest, _ =>
    simp only [classify_trace]
    rw [sampleEvery_eq_ok h2, sampleEvery_eq_ok h3]
    refine ⟨_, rfl, ?_, ?_⟩
    · simp only [List.map_cons, pyMinL]
      rw [← pyMin_fst_sub_one t0 trest, Finset.mem_sort]
      exact Finset.mem_insert_self _ _
    · simp only [List.map_cons, pyMaxL]
      rw [← pyMax_fst_sub_one t0 trest, Finset.mem_sort]
      exact Finset.mem_insert_of_mem (Finset.mem_insert_self _ _)

/-- C6 witness: the boundary guarantee at a concrete three-write trace. -/
theorem c6_witness :
    ∃ fault_points,
      classify_trace [((1 : Int), (0 : Int)), (5, 4096), (9, 100000)]
        [((0 : Int), 8192)] 0 4096 3 100 3 = Except.ok fault_points
      ∧ pyMinL (([((1 : Int), (0 : Int)), (5, 4096), (9, 100000)] :
          List (Int × Int)).map Prod.fst) - 1 ∈ fault_points
      ∧ pyMaxL (([((1 : Int), (0 : Int)), (5, 4096), (9, 100000)] :
          List (Int × Int)).map Prod.fst) - 1 ∈ fault_points :=
  c6_classify_trace_boundary_guarantee _ _ _ _ _ _ _ (by decide) (by decide) (by decide)

lemma genLoop_length (g : Nat → Nat) (pos i n : Nat) :
    (genLoop g pos i n).length = n := by
  induction n generalizing pos i with
  | zero => rfl
  | succ k ih => simp [genLoop, ih]

/-- C9 (amended): `generate_scenarios` is a deterministic function of
`(count, seed)` — two calls with the same count and RNG stream return the
same sequence — and always returns exactly `count` scenarios; but changing
only the seed can change content only past the 18-scenario curated prefix:
for `count ≤ 18` the output is identical for every seed, so a seed change
need not change any scenario. -/
theorem c9_generator_determinism_and_length (count : Nat) (g1 g2 : Nat → Nat) :
    (generate_scenarios count g1).length = count
    ∧ (count ≤ targetedScenarios.length →
      generate_scenarios count g1 = generate_scenarios count g2) := by
  have hlen : targetedScenarios.length = 18 := rfl
  constructor
  · simp only [generate_scenarios, List.length_take, List.length_append,
      genLoop_length, hlen]
    omega
  · intro hle
    rw [hlen] at hle
    simp only [generate_scenarios, hlen, Nat.sub_eq_zero_of_le hle, genLoop]

/-- C9 counterexample: changing only the seed need not change any
scenario's content — with `count = 5` (within the curated prefix) two
different RNG streams produce identical output. -/
theorem c9_generator_seed_counterexample :
    exStreamZero ≠ exStreamOne
    ∧ generate_scenarios 5 exStreamZero = generate_scenarios 5 exStreamOne := by
  constructor
  · intro h
    exact absurd (congrFun h 0) Nat.zero_ne_one
  · rfl
